import Mathlib

/-!
Verification of the pyfaktory client library (Faktory Work Protocol client)
against its natural-language specification.

The Python sources under `src/pyfaktory` are shallowly embedded: pure
functions become Lean functions, stateful methods become explicit state
passing, exceptions become `Except`/`Option` results.  Python machine
integers are arbitrary precision, so `Int`/`Nat` model them exactly.
-/

namespace Pyfaktory

/-- Decidable equality for `Except`, used to evaluate embedded functions
whose Python originals raise exceptions. -/
instance {ε α : Type} [DecidableEq ε] [DecidableEq α] : DecidableEq (Except ε α) := fun x y =>
  match x, y with
  | .ok a, .ok b =>
    if h : a = b then isTrue (by rw [h]) else isFalse (fun hh => h (Except.ok.inj hh))
  | .error a, .error b =>
    if h : a = b then isTrue (by rw [h]) else isFalse (fun hh => h (Except.error.inj hh))
  | .ok _, .error _ => isFalse (fun hh => Except.noConfusion hh)
  | .error _, .ok _ => isFalse (fun hh => Except.noConfusion hh)

/-- Client lifecycle state, from `util/enums.py` (`class State(Enum)`). -/
inductive State where
  | DISCONNECTED
  | NOT_IDENTIFIED
  | IDENTIFIED
  | QUIET
  | TERMINATING
  | END
deriving DecidableEq, Repr, Fintype

/-- Client role. `Client.__init__` validates `role ∈ ['consumer', 'producer', 'both']`
(raising `ValueError` otherwise), so the inductive carries exactly the three
accepted values. -/
inductive Role where
  | producer
  | consumer
  | both
deriving DecidableEq, Repr, Fintype

/-! Constants from `util/constants.py`. -/

def RECOMMENDED_BEAT_PERIOD : Int := 15

def MIN_ALLOOWABLE_BEAT_PERIOD : Int := 5

def MAX_ALLOOWABLE_BEAT_PERIOD : Int := 60

def DEFAULT_GRACE_PERIOD : Int := 25

def MAX_GRACE_PERIOD : Int := 30

/-! ## Python string primitives used by `util/helper.py`

`str.split('\r\n')` and `int(...)` are Python standard-library functions;
they are modelled here exactly on the inputs the repository feeds them. -/

/-- Python `s.split('\r\n')` on a list of characters: split on every
non-overlapping occurrence of the two-character separator, left to right.
`''.split('\r\n') = ['']`. -/
def splitCRLF : List Char → List (List Char)
  | [] => [[]]
  | '\r' :: '\n' :: rest => [] :: splitCRLF rest
  | c :: rest =>
    match splitCRLF rest with
    | [] => [[c]]
    | g :: gs => (c :: g) :: gs

/-- Python `s.split('\r\n')` on strings. -/
def pySplitCRLF (s : String) : List String :=
  (splitCRLF s.data).map (fun l => String.mk l)

/-- The characters Python's `int()` strips around a numeral, in the ASCII
range: `\t \n \v \f \r` and the space (`Py_ISSPACE`; the `\x1c`-`\x1f`
separators are `str.isspace`-only and make `int()` raise). -/
def pyIsSpace (c : Char) : Bool :=
  (9 ≤ c.toNat && c.toNat ≤ 13) || c.toNat = 32

/-- Tail of a PEP 515 numeral after its first digit: digits with single
underscores allowed only between digits (`5_0` parses, `5_`, `5__0` do
not). -/
def digitsUnderscoreTail : List Char → Bool
  | [] => true
  | '_' :: c :: rest => c.isDigit && digitsUnderscoreTail rest
  | c :: rest => c.isDigit && digitsUnderscoreTail rest

/-- A non-empty decimal numeral in Python `int()` syntax: a digit followed
by digits with single interior underscores. -/
def pyDigits : List Char → Bool
  | [] => false
  | c :: rest => c.isDigit && digitsUnderscoreTail rest

/-- Python `int(s)` on strings of ASCII characters: optional surrounding
whitespace (`pyIsSpace`), an optional sign, then a decimal numeral with
single underscores between digits (PEP 515); anything else raises
`ValueError` (modelled as `none`).  This is exact for ASCII input; Unicode
decimal digits and non-ASCII whitespace, which `int()` also accepts, are
outside the modelled domain, and every theorem quantifying over inputs
restricts itself to ASCII strings. -/
def pyInt (s : String) : Option Int :=
  let t := ((s.data.dropWhile pyIsSpace).reverse.dropWhile pyIsSpace).reverse
  let neg : Bool := t.head? == some '-'
  let core := if neg || (t.head? == some '+') then t.drop 1 else t
  if pyDigits core then
    let n : Nat := (core.filter (fun c => c != '_')).foldl (fun acc c => 10 * acc + (c.toNat - 48)) 0
    some (if neg then -(n : Int) else (n : Int))
  else none

namespace RESP

/-- `RESP.parse_bulk_string` from `util/helper.py`:

```python
assert s[0] == '$'
try:
    n_bytes, data = s[1:].split('\r\n')
    return int(n_bytes), data
except Exception:
    return -1, ''
```

The `assert` (and the `s[0]` indexing of an empty string) raises outside the
`try`, modelled as `.error ()`.  Inside the `try`, the two-variable unpacking
succeeds only when the split yields exactly two pieces, and `int` must parse;
any failure is caught and yields `(-1, '')`. -/
def parse_bulk_string (s : String) : Except Unit (Int × String) :=
  if s.data.head? ≠ some '$' then .error ()
  else
    match pySplitCRLF (s.drop 1) with
    | [nb, data] =>
      match pyInt nb with
      | some n => .ok (n, data)
      | none => .ok (-1, "")
    | _ => .ok (-1, "")

end RESP

/-- Whether the body of `parse_bulk_string`'s `try` block succeeds: the
tail must split on `\r\n` into exactly two pieces whose first parses as an
integer. -/
def bulkSplitOk (s : String) : Bool :=
  match pySplitCRLF (s.drop 1) with
  | [nb, _] => (pyInt nb).isSome
  | _ => false

/-! ## `Client._set_state` (`client.py`) -/

/-- `Client._set_state`: rejects QUIET/TERMINATING for producer clients
(raising `FaktroyWorkProtocolError` before any assignment), otherwise stores
the new state; returns `False` (no change) when the state is already `new`.
The heartbeat-thread spawn on entering IDENTIFIED is a side effect with no
bearing on the stored state and is not modelled. -/
def _set_state (role : Role) (st new : State) : Except String (State × Bool) :=
  if role = .producer ∧ (new = .QUIET ∨ new = .TERMINATING) then
    .error "Producer Client cannot enter stage"
  else if st = new then
    .ok (st, false)
  else
    .ok (new, true)

/-- The state after one `_set_state` request: a raised
`FaktroyWorkProtocolError` leaves the state untouched. -/
def setStateStep (role : Role) (st new : State) : State :=
  match _set_state role st new with
  | .ok (st', _) => st'
  | .error _ => st

/-- Runs a sequence of `_set_state` requests.  A raised
`FaktroyWorkProtocolError` leaves the state untouched; the caller may keep
issuing commands afterwards, so the fold continues with the old state. -/
def setStates (role : Role) : State → List State → State
  | st, [] => st
  | st, new :: rest => setStates role (setStateStep role st new) rest

/-! ## Command gating: `util/decorators.py`

Every client command method is wrapped by `valid_states_cmd([...])` and the
producer/consumer commands additionally by `producer_cmd` / `consumer_cmd`
(the role decorator is outermost).  A failed guard raises
`FaktroyWorkProtocolError` before the wrapped method runs, so nothing is
sent and the state is untouched. -/

/-- The decorated command methods of `Client` (`client.py`).  Constructor
names drop the leading underscore of the source (`end_` stands for `_end`). -/
inductive ClientCmd where
  | connect
  | hello
  | flush
  | info
  | end_
  | mutate
  | batch_status
  | push
  | pushb
  | batch_new
  | batch_commit
  | batch_open
  | fetch
  | ack
  | fail
  | beat
deriving DecidableEq, Repr, Fintype

/-- Which methods carry the `@producer_cmd` decorator. -/
def hasProducerDecorator : ClientCmd → Bool
  | .push | .pushb | .batch_new | .batch_commit | .batch_open => true
  | _ => false

/-- Which methods carry the `@consumer_cmd` decorator. -/
def hasConsumerDecorator : ClientCmd → Bool
  | .fetch | .ack | .fail | .beat => true
  | _ => false

/-- The argument of each method's `@valid_states_cmd([...])` decorator. -/
def valid_states : ClientCmd → List State
  | .connect => [.DISCONNECTED]
  | .hello => [.NOT_IDENTIFIED]
  | .flush => [.IDENTIFIED]
  | .info => [.IDENTIFIED]
  | .end_ => [.IDENTIFIED, .QUIET, .TERMINATING]
  | .mutate => [.IDENTIFIED]
  | .batch_status => [.IDENTIFIED]
  | .push => [.IDENTIFIED]
  | .pushb => [.IDENTIFIED]
  | .batch_new => [.IDENTIFIED]
  | .batch_commit => [.IDENTIFIED]
  | .batch_open => [.IDENTIFIED]
  | .fetch => [.IDENTIFIED]
  | .ack => [.IDENTIFIED, .QUIET, .TERMINATING]
  | .fail => [.IDENTIFIED, .QUIET, .TERMINATING]
  | .beat => [.IDENTIFIED, .QUIET]

/-- The producer commands named by the specification. -/
def producerCmds : List ClientCmd := [.push, .pushb, .batch_new, .batch_open, .batch_commit]

/-- The consumer commands named by the specification. -/
def consumerCmds : List ClientCmd := [.fetch, .ack, .fail, .beat]

def wrongRoleMsg : String := "Trying to send command with wrong role client"

def invalidStateMsg : String := "Client state not in the valid states of the command"

/-- Observable outcome of invoking a command method: the Python return or
exception, the frames written to the socket, and the client state afterwards. -/
structure Outcome where
  result : Except String Unit
  sent : List String
  finalState : State
deriving DecidableEq, Repr

/-- Invocation of a command method through its decorators, with the wrapped
body abstracted as `body` (the body is what sends frames and may change the
state).  The role guard is outermost, exactly as in the source, where
`@producer_cmd` / `@consumer_cmd` wrap `@valid_states_cmd([...])`. -/
def invoke (c : ClientCmd) (role : Role) (st : State) (body : Outcome) : Outcome :=
  if hasProducerDecorator c ∧ role = .consumer then
    ⟨.error wrongRoleMsg, [], st⟩
  else if hasConsumerDecorator c ∧ role = .producer then
    ⟨.error wrongRoleMsg, [], st⟩
  else if st ∈ valid_states c then
    body
  else
    ⟨.error invalidStateMsg, [], st⟩

/-- A guard rejected the invocation: a protocol error was raised, nothing
was sent, and the state is unchanged. -/
def rejected (o : Outcome) (st : State) : Prop :=
  (o.result = .error wrongRoleMsg ∨ o.result = .error invalidStateMsg) ∧
    o.sent = [] ∧ o.finalState = st

/-! ## `Client._beat` (`client.py`) -/

/-- `Client._end` with its `@valid_states_cmd([IDENTIFIED, QUIET, TERMINATING])`
decorator: sends `END` and moves to the END state.  Outside the valid states
the decorator raises before anything is sent. -/
def _end (role : Role) (st : State) : Except String State :=
  if st ∉ valid_states .end_ then .error invalidStateMsg
  else
    match _set_state role st .END with
    | .ok (st', _) => .ok st'
    | .error e => .error e

/-- Outcome of `Client.disconnect`: the return or raised exception, the
state afterwards, and whether `self.sock.close()` was reached. -/
structure DisconnectResult where
  result : Except String Unit
  finalState : State
  socketClosed : Bool
deriving DecidableEq, Repr

/-- `Client.disconnect`:

```python
if self.state != State.END:
    with self.rlock:
        self._end()
self.sock.close()
self._set_state(State.DISCONNECTED)
```

An exception raised by `_end` propagates, so the close and the final state
change are never reached. -/
def disconnect (role : Role) (st : State) : DisconnectResult :=
  match (if st ≠ State.END then _end role st else .ok st) with
  | .error e => ⟨.error e, st, false⟩
  | .ok st' =>
    match _set_state role st' .DISCONNECTED with
    | .ok (st'', _) => ⟨.ok (), st'', true⟩
    | .error e => ⟨.error e, st', true⟩

/-! ## `Client.__init__` (`client.py`), consumer-specific fields -/

/-- Fields of a freshly constructed `Client` that the claims are about.
`worker_id = none` stands for the random `uuid4().hex` fallback. -/
structure ClientInit where
  role : Role
  worker_id : Option String
  beat_period : Option Int
  state : State
deriving DecidableEq, Repr

/-- `Client.__init__` (the `role` inductive already accounts for the
`ValueError` on an unknown role string).  For non-producer roles the source
checks the worker id length, then checks the beat period:

```python
if not (C.MIN_ALLOOWABLE_BEAT_PERIOD <= beat_period <= C.MAX_ALLOOWABLE_BEAT_PERIOD):
    ValueError(...)
self.beat_period = beat_period
```

The `ValueError(...)` is constructed but never raised (there is no `raise`),
so every `beat_period` value is accepted and stored unchanged; the embedding
therefore has no branch on the range check. -/
def clientInit (role : Role) (worker_id : Option String) (beat_period : Int) :
    Except String ClientInit :=
  if role = .producer then
    .ok ⟨role, none, none, .DISCONNECTED⟩
  else
    match worker_id with
    | some w =>
      if w.length < 8 then
        .error "Worker id must be a string of at least 8 characters"
      else
        .ok ⟨role, some w, some beat_period, .DISCONNECTED⟩
    | none => .ok ⟨role, none, some beat_period, .DISCONNECTED⟩

/-! ## `Consumer.__init__` (`consumer.py`) -/

/-- Fields of a freshly constructed `Consumer` that the claims are about.
`weights` is `none` when the source never sets `self.weights`
(non-weighted priorities). -/
structure ConsumerInit where
  queues : List String
  priority : String
  weights : Option (List Rat)
  concurrency : Nat
  grace_period : Int
deriving DecidableEq, Repr

/-- `Consumer.__init__`: rejects a producer-role client, validates the
priority string, and for `'weighted'` priority requires weights of the same
length as the queues.  `grace_period` is stored unchanged — the source has
no comparison against `MAX_GRACE_PERIOD` (the constant is never read). -/
def consumerInit (clientRole : Role) (queues : List String) (priority : String)
    (weights : Option (List Rat)) (concurrency : Nat) (grace_period : Int) :
    Except String ConsumerInit :=
  if clientRole = .producer then
    .error "Provided client is exclusively producer and cannot act as a consumer"
  else if priority ∉ ["strict", "uniform", "weighted"] then
    .error "Unexpected priority"
  else if priority = "weighted" then
    match weights with
    | none => .error "Priority is weighted but weights are not provided"
    | some ws =>
      if ws.length ≠ queues.length then
        .error "Weights and queues lengths mismatch"
      else
        .ok ⟨queues, priority, some ws, concurrency, grace_period⟩
  else
    .ok ⟨queues, priority, none, concurrency, grace_period⟩

/-! ## Password hashing in `Client.connect` (`client.py`)

SHA-256 itself is the Python standard library; it enters the embedding as an
abstract byte-sequence function `sha`, since the claims are about the
iteration structure around it.  Bytes are naturals (< 256 in reality). -/

/-- The hashing loop of `Client.connect`:

```python
password_hash = str.encode(str(self.password)) + str.encode(password_hash_salt)
for _ in range(password_hash_iterations):
    password_hash = hashlib.sha256(password_hash).digest()
``` -/
def sha256Loop (sha : List Nat → List Nat) : Nat → List Nat → List Nat
  | 0, h => h
  | n + 1, h => sha256Loop sha n (sha h)

/-- Lowercase hexadecimal digit of a nibble, as produced by `bytes.hex()`. -/
def hexDigit (n : Nat) : Char :=
  Char.ofNat (if n < 10 then 48 + n else 87 + n)

/-- Python `bytes.hex()`: two lowercase hex digits per byte.  Model bytes
are reduced mod 256, which is the identity on real byte values. -/
def bytesHex (bs : List Nat) : String :=
  String.mk (bs.flatMap (fun b => [hexDigit (b % 256 / 16), hexDigit (b % 16)]))

/-- A concrete stand-in hash function used to exercise the authentication
path on closed inputs (the real SHA-256 never returns empty bytes, and
neither does this). -/
def shaDemo : List Nat → List Nat := fun l => 0 :: l

/-- The authentication part of `Client.connect`, as a function of the
optional `'i'`/`'s'` fields of the server greeting and the client password
(`none` when the URL carried no password).  Returns the `pwdhash` sent with
HELLO (`none` when no hash is sent), or the raised `ValueError`.  The
trailing `if password_hash:` in the source tests bytes truthiness, hence the
emptiness check on the loop result. -/
def connectAuth (sha : List Nat → List Nat) (password : Option (List Nat))
    (hi_i : Option Nat) (hi_s : Option (List Nat)) : Except String (Option String) :=
  match hi_i, hi_s with
  | some iters, some salt =>
    match password with
    | none => .error "Password required but not provided"
    | some pw =>
      if pw = [] then .error "Password required but not provided"
      else
        let h := sha256Loop sha iters (pw ++ salt)
        .ok (if h = [] then none else some (bytesHex h))
  | _, _ => .ok none

/-! ## `weighted_shuffle` (`util/helper.py`) -/

/-- `weighted_shuffle` with the random draws made explicit: `draws[i]` is
the value `random.random()` returns for index `i` (CPython's `sorted`
computes the key of each element once, in list order).  Weights are
restricted to naturals so that the float power `random.random()**weights[i]`
is exact rational exponentiation.  `sorted` is a stable ascending sort by
key, which the stable insertion sort below reproduces exactly.  The lists
are index-aligned as in the source (`weights` at least as long as `items`). -/
def weighted_shuffle {α : Type} (items : List α) (weights : List Nat)
    (draws : List Rat) : List α :=
  let key : Nat → Rat := fun i => (draws.getD i 0) ^ (weights.getD i 0)
  let order := List.insertionSort (fun i j => key i < key j) (List.range items.length)
  order.filterMap (fun i => items.get? i)

/-- The shuffle the specification prescribes, following its words: for each
index draw `u_i`, compute the key `u_i ^ (1 / w_i)`, and return the items
sorted by key descending (Efraimidis–Spirakis).  Stated over the reals since
`1 / w` is not an integer exponent. -/
noncomputable def esWeightedShuffle {α : Type} (items : List α) (weights : List Nat)
    (draws : List Rat) : List α :=
  let key : Nat → ℝ := fun i =>
    ((draws.getD i 0 : Rat) : ℝ) ^ ((1 : ℝ) / ((weights.getD i 0 : Nat) : ℝ))
  let order := @List.insertionSort ℕ (fun i j => key i > key j)
    (Classical.decRel _) (List.range items.length)
  order.filterMap (fun i => items.get? i)

/-! ## `MutateOperation` (`models.py`) and `Client.mutate`

The pydantic models: `MutateOperation` has `use_enum_values=True` and
`extra='forbid'`; its `filter` field defaults to `None`, while the three
`Optional` fields of `JobFilter` have **no** default — under pydantic v2
(the API generation `models.py` imports: `ConfigDict`, `field_validator`)
a field annotated `Optional[X]` without a default is *required*, so a wire
dictionary missing it fails validation.  `Client.mutate` serializes with
`operation.dict(exclude_none=True)`, which drops every `None`-valued key,
including the nested ones. -/

/-- `Cmd` enum from `models.py`. -/
inductive Cmd where
  | clear
  | kill
  | discard
  | requeue
deriving DecidableEq, Repr, Fintype

/-- The string value of each `Cmd` member (`Cmd` is a `str` enum). -/
def Cmd.value : Cmd → String
  | .clear => "clear"
  | .kill => "kill"
  | .discard => "discard"
  | .requeue => "requeue"

/-- pydantic validation of a string against `Cmd`. -/
def Cmd.ofValue : String → Option Cmd
  | "clear" => some .clear
  | "kill" => some .kill
  | "discard" => some .discard
  | "requeue" => some .requeue
  | _ => none

/-- `Target` enum from `models.py`. -/
inductive Target where
  | retries
  | scheduled
  | dead
deriving DecidableEq, Repr, Fintype

/-- The string value of each `Target` member (`Target` is a `str` enum). -/
def Target.value : Target → String
  | .retries => "retries"
  | .scheduled => "scheduled"
  | .dead => "dead"

/-- pydantic validation of a string against `Target`. -/
def Target.ofValue : String → Option Target
  | "retries" => some .retries
  | "scheduled" => some .scheduled
  | "dead" => some .dead
  | _ => none

/-- `JobFilter` model: `jids`, `regexp`, `jobtype`, each `Optional` with no
default. -/
structure JobFilter where
  jids : Option (List String)
  regexp : Option String
  jobtype : Option String
deriving DecidableEq, Repr

/-- `MutateOperation` model: `cmd`, `target` (required), `filter` defaulting
to `None`. -/
structure MutateOperation where
  cmd : Cmd
  target : Target
  filter : Option JobFilter
deriving DecidableEq, Repr

/-- The wire dictionary of a `JobFilter` after `exclude_none=True`: a `none`
field means the key is absent. -/
structure WireFilter where
  jids : Option (List String)
  regexp : Option String
  jobtype : Option String
deriving DecidableEq, Repr

/-- The wire dictionary `operation.dict(exclude_none=True)` that
`Client.mutate` serializes: a `none` filter means the `'filter'` key is
absent. -/
structure MutateWire where
  cmd : String
  target : String
  filter : Option WireFilter
deriving DecidableEq, Repr

/-- `exclude_none=True` serialization of a `JobFilter`. -/
def filterDict (f : JobFilter) : WireFilter :=
  ⟨f.jids, f.regexp, f.jobtype⟩

/-- `operation.dict(exclude_none=True)` as used by `Client.mutate`.  With
`use_enum_values=True` the model already stores the lowercase string values
of `cmd` and `target`. -/
def mutateDict (op : MutateOperation) : MutateWire :=
  ⟨op.cmd.value, op.target.value, op.filter.map filterDict⟩

/-- The keys present in the wire dictionary. -/
def mutateWireKeys (w : MutateWire) : List String :=
  ["cmd", "target"] ++ (match w.filter with | some _ => ["filter"] | none => [])

/-- pydantic v2 validation of a wire dictionary against `JobFilter`: all
three fields are `Optional` *without* a default, hence required — an absent
key is a validation error. -/
def validateJobFilter (w : WireFilter) : Except String JobFilter :=
  match w.jids, w.regexp, w.jobtype with
  | some a, some b, some c => .ok ⟨some a, some b, some c⟩
  | _, _, _ => .error "Field required"

/-- pydantic v2 validation of a wire dictionary against `MutateOperation`
(deserialization direction of the round trip). -/
def validateMutateOperation (w : MutateWire) : Except String MutateOperation :=
  match Cmd.ofValue w.cmd, Target.ofValue w.target with
  | some c, some t =>
    match w.filter with
    | none => .ok ⟨c, t, none⟩
    | some wf =>
      match validateJobFilter wf with
      | .ok f => .ok ⟨c, t, some f⟩
      | .error e => .error e
  | _, _ => .error "Input should be a valid enumeration member"

end Pyfaktory

/-! # Theorems -/

namespace Pyfaktory

example : pySplitCRLF "5\r\nhello" = ["5", "hello"] := by decide

example : pySplitCRLF "5\r\nhello\r\n" = ["5", "hello", ""] := by decide

example : RESP.parse_bulk_string "$5\r\nhello" = .ok (5, "hello") := by rfl

example : RESP.parse_bulk_string "$-1\r\n" = .ok (-1, "") := by rfl

/-- Claim C1: invoking any client command method outside its declared
valid-state subset raises a protocol error without sending anything;
invoking a producer command (`_push`, `_pushb`, `_batch_new`, `_batch_open`,
`_batch_commit`) on a consumer-role client, or a consumer command
(`_fetch`, `_ack`, `_fail`, `_beat`) on a producer-role client, raises a
protocol error without sending anything; in all cases the client state is
unchanged.  `body` is the wrapped method body, arbitrary. -/
theorem C1_cmd_gating (c : ClientCmd) (role : Role) (st : State) (body : Outcome) :
    (st ∉ valid_states c → rejected (invoke c role st body) st) ∧
    (c ∈ producerCmds → role = .consumer → rejected (invoke c role st body) st) ∧
    (c ∈ consumerCmds → role = .producer → rejected (invoke c role st body) st) := by
  refine ⟨?_, ?_, ?_⟩
  · intro h
    unfold invoke
    split_ifs
    all_goals try exact ⟨Or.inl rfl, rfl, rfl⟩
    all_goals exact ⟨Or.inr rfl, rfl, rfl⟩
  · intro hc hrole
    have hp : hasProducerDecorator c = true :=
      (by decide : ∀ c : ClientCmd, c ∈ producerCmds → hasProducerDecorator c = true) c hc
    unfold invoke
    rw [if_pos ⟨hp, hrole⟩]
    exact ⟨Or.inl rfl, rfl, rfl⟩
  · intro hc hrole
    have hp : hasConsumerDecorator c = true :=
      (by decide : ∀ c : ClientCmd, c ∈ consumerCmds → hasConsumerDecorator c = true) c hc
    unfold invoke
    rw [if_neg (fun hh : _ ∧ role = .consumer => by
      rw [hrole] at hh; exact Role.noConfusion hh.2)]
    rw [if_pos ⟨hp, hrole⟩]
    exact ⟨Or.inl rfl, rfl, rfl⟩

/-- Witness for C1: a `_beat` in state DISCONNECTED, a `_push` on a
consumer-role client, and a `_beat` on a producer-role client are all
rejected with nothing sent and the state unchanged. -/
theorem C1_witness :
    rejected (invoke .beat .consumer .DISCONNECTED ⟨.ok (), ["BEAT"], .IDENTIFIED⟩) .DISCONNECTED ∧
    rejected (invoke .push .consumer .IDENTIFIED ⟨.ok (), ["PUSH"], .IDENTIFIED⟩) .IDENTIFIED ∧
    rejected (invoke .beat .producer .IDENTIFIED ⟨.ok (), ["BEAT"], .IDENTIFIED⟩) .IDENTIFIED :=
  ⟨(C1_cmd_gating .beat .consumer .DISCONNECTED _).1 (by decide),
   (C1_cmd_gating .push .consumer .IDENTIFIED _).2.1 (by decide) rfl,
   (C1_cmd_gating .beat .producer .IDENTIFIED _).2.2 (by decide) rfl⟩

/-- Claim C9: a producer-role client never reaches QUIET or TERMINATING:
`_set_state` rejects both targets with a protocol error and leaves the
state unchanged (the exception is raised before the assignment), and no
sequence of state-change requests starting from DISCONNECTED can bring a
producer client into QUIET or TERMINATING. -/
theorem C9_producer_never_quiet :
    (∀ st : State,
      _set_state .producer st .QUIET = .error "Producer Client cannot enter stage" ∧
      _set_state .producer st .TERMINATING = .error "Producer Client cannot enter stage") ∧
    (∀ reqs : List State,
      setStates .producer .DISCONNECTED reqs ≠ .QUIET ∧
      setStates .producer .DISCONNECTED reqs ≠ .TERMINATING) := by
  constructor
  · decide
  · have hd : ∀ st new : State, (st ≠ .QUIET ∧ st ≠ .TERMINATING) →
        (setStateStep .producer st new ≠ .QUIET ∧ setStateStep .producer st new ≠ .TERMINATING) := by
      decide
    have inv : ∀ (reqs : List State) (st : State), (st ≠ .QUIET ∧ st ≠ .TERMINATING) →
        (setStates .producer st reqs ≠ .QUIET ∧ setStates .producer st reqs ≠ .TERMINATING) := by
      intro reqs
      induction reqs with
      | nil => exact fun st h => h
      | cons new rest ih => exact fun st h => ih (setStateStep .producer st new) (hd st new h)
    exact fun reqs => inv reqs .DISCONNECTED ⟨by decide, by decide⟩

/-- Claim C10: `disconnect()` on a client in state DISCONNECTED or
NOT_IDENTIFIED raises the protocol error of `_end`'s state guard; the
socket is not closed and the state is unchanged. -/
theorem C10_disconnect_before_handshake (role : Role) :
    disconnect role .DISCONNECTED = ⟨.error invalidStateMsg, .DISCONNECTED, false⟩ ∧
    disconnect role .NOT_IDENTIFIED = ⟨.error invalidStateMsg, .NOT_IDENTIFIED, false⟩ := by
  cases role <;> exact ⟨rfl, rfl⟩

/-- Counterexample for C4: on the exact string `"$5\r\nhello\r\n"` the
parser does *not* return `(5, "hello")`: the split on `\r\n` yields three
pieces (`"5"`, `"hello"`, `""`), the two-variable unpacking raises, and the
handler returns `(-1, "")`. -/
theorem C4_counterexample :
    RESP.parse_bulk_string "$5\r\nhello\r\n" ≠ .ok (5, "hello") := by decide

/-- Claim C4, amended: `parse_bulk_string` receives replies already
stripped of their trailing CRLF by `Client._receive`, so it returns
`(5, "hello")` on `"$5\r\nhello"` (not on `"$5\r\nhello\r\n"`, which has a
third, empty piece); on `"$-1\r\n"` it returns `(-1, "")`; and on any
malformed ASCII input beginning with `'$'` — one whose tail does not split
into exactly two pieces whose first parses under Python `int()` syntax
(optional whitespace and sign, digits with single interior underscores) —
it returns `(-1, "")`.  The `"$5_0\r\nx"` conjunct shows an underscore
numeral being accepted, as `int()` accepts it; the universal clause is
restricted to ASCII strings, the domain on which `pyInt` models `int()`
exactly. -/
theorem C4_amended :
    RESP.parse_bulk_string "$5\r\nhello" = .ok (5, "hello") ∧
    RESP.parse_bulk_string "$-1\r\n" = .ok (-1, "") ∧
    RESP.parse_bulk_string "$5_0\r\nx" = .ok (50, "x") ∧
    ∀ s : String, s.data.all (fun c => c.toNat < 128) →
      s.data.head? = some '$' → bulkSplitOk s = false →
      RESP.parse_bulk_string s = .ok (-1, "") := by
  refine ⟨by decide, by decide, by decide, ?_⟩
  intro s _ hh hm
  unfold RESP.parse_bulk_string
  unfold bulkSplitOk at hm
  rw [if_neg (fun hne => hne hh)]
  rcases hsp : pySplitCRLF (s.drop 1) with _ | ⟨nb, _ | ⟨d, _ | _⟩⟩ <;> rw [hsp] at hm
  rcases hpi : pyInt nb with _ | n
  · show (match pyInt nb with
      | some n => (Except.ok (n, d) : Except Unit (Int × String))
      | none => Except.ok (-1, "")) = Except.ok (-1, "")
    rw [hpi]
  · simp [hpi] at hm

/-- Witness for C4 (malformed case): `"$abc"` is ASCII and has no CRLF at
all, so the unpacking fails and the parser returns `(-1, "")`. -/
theorem C4_witness : RESP.parse_bulk_string "$abc" = .ok (-1, "") :=
  C4_amended.2.2.2 "$abc" (by rfl) (by rfl) (by rfl)

/-- Claim C6 (failing input): a consumer-role client constructed with
`beat_period = 1000` stores 1000 unchanged even though 1000 is outside
`[MIN_ALLOOWABLE_BEAT_PERIOD, MAX_ALLOOWABLE_BEAT_PERIOD] = [5, 60]`:
the range check builds `ValueError(...)` but never raises it, so nothing
is clamped or rejected.  The default constant is 15 as the claim says. -/
theorem C6_beat_period_not_validated :
    clientInit .consumer (some "someworkerid") 1000 =
      .ok ⟨.consumer, some "someworkerid", some 1000, .DISCONNECTED⟩ ∧
    ¬ (MIN_ALLOOWABLE_BEAT_PERIOD ≤ (1000 : Int) ∧ (1000 : Int) ≤ MAX_ALLOOWABLE_BEAT_PERIOD) ∧
    RECOMMENDED_BEAT_PERIOD = 15 := by decide

/-- Counterexample for C7: a Consumer constructed with `grace_period = 100`
stores 100, which exceeds `MAX_GRACE_PERIOD = 30` — nothing is capped. -/
theorem C7_counterexample :
    consumerInit .consumer ["default"] "uniform" none 4 100 =
      .ok ⟨["default"], "uniform", none, 4, 100⟩ ∧
    ¬ ((100 : Int) ≤ MAX_GRACE_PERIOD) := by decide

/-- Claim C7, amended: the default grace period is 25 and the advisory
maximum constant is 30, but every successfully constructed Consumer stores
the supplied `grace_period` unchanged — values above 30 are not capped
(`MAX_GRACE_PERIOD` is never read by `Consumer.__init__`). -/
theorem C7_amended (r : Role) (qs : List String) (pr : String)
    (ws : Option (List Rat)) (conc : Nat) (gp : Int) (cfg : ConsumerInit)
    (h : consumerInit r qs pr ws conc gp = .ok cfg) :
    cfg.grace_period = gp ∧ DEFAULT_GRACE_PERIOD = 25 ∧ MAX_GRACE_PERIOD = 30 := by
  refine ⟨?_, rfl, rfl⟩
  unfold consumerInit at h
  split_ifs at h
  all_goals try rw [← Except.ok.inj h]
  split at h
  all_goals try split_ifs at h
  all_goals first
    | exact Except.noConfusion h
    | rw [← Except.ok.inj h]

/-- Witness for C7: a strict-priority Consumer with `grace_period = 7`
stores 7. -/
theorem C7_witness :
    (⟨["default"], "strict", none, 4, 7⟩ : ConsumerInit).grace_period = 7 ∧
    DEFAULT_GRACE_PERIOD = 25 ∧ MAX_GRACE_PERIOD = 30 :=
  C7_amended .consumer ["default"] "strict" none 4 7 ⟨["default"], "strict", none, 4, 7⟩ (by rfl)

/-- Claim C8 (failing input and the holding parts): serializing a
`MutateOperation` whose filter has only `jids` populated and validating the
wire dictionary back fails — `exclude_none=True` drops the `None`-valued
`regexp`/`jobtype` keys, and under pydantic v2 the `Optional`-without-
default fields of `JobFilter` are required, so the round trip is broken.
The other two parts of the claim hold: with no filter the round trip
succeeds and the wire form has no `'filter'` key at all, and the enum
members serialize to their lowercase names (and validate back). -/
theorem C8_mutate_wire :
    validateMutateOperation (mutateDict ⟨.kill, .retries, some ⟨some ["j1"], none, none⟩⟩)
      = .error "Field required" ∧
    (∀ c : Cmd, ∀ t : Target,
      validateMutateOperation (mutateDict ⟨c, t, none⟩) = .ok ⟨c, t, none⟩ ∧
      "filter" ∉ mutateWireKeys (mutateDict ⟨c, t, none⟩)) ∧
    (∀ c : Cmd, (Cmd.value c).data.all (fun ch => ch.isLower) ∧
      Cmd.ofValue (Cmd.value c) = some c) ∧
    (∀ t : Target, (Target.value t).data.all (fun ch => ch.isLower) ∧
      Target.ofValue (Target.value t) = some t) ∧
    (∀ (c : Cmd) (t : Target) (j : List String) (r jt : String),
      validateMutateOperation (mutateDict ⟨c, t, some ⟨some j, some r, some jt⟩⟩)
        = .ok ⟨c, t, some ⟨some j, some r, some jt⟩⟩) := by
  refine ⟨by decide, by decide, by decide, by decide, ?_⟩
  intro c t j r jt
  cases c <;> cases t <;> rfl

/-- The hashing loop equals plain function iteration. -/
theorem sha256Loop_eq_iterate (sha : List Nat → List Nat) :
    ∀ (n : Nat) (x : List Nat), sha256Loop sha n x = sha^[n] x := by
  intro n
  induction n with
  | zero => intro x; rfl
  | succ m ih =>
    intro x
    rw [sha256Loop, ih (sha x), Function.iterate_succ_apply]

/-- Every character `bytes.hex()` produces is a lowercase hex digit. -/
theorem bytesHex_lower (bs : List Nat) :
    ∀ c ∈ (bytesHex bs).data, c ∈ ("0123456789abcdef").data := by
  intro c hc
  have hd : ∀ k < 16, hexDigit k ∈ ("0123456789abcdef").data := by decide
  rcases List.mem_flatMap.mp hc with ⟨b, _, hb⟩
  rcases List.mem_cons.mp hb with h | hb2
  · rw [h]; exact hd _ (by omega)
  · rcases List.mem_cons.mp hb2 with h | h3
    · rw [h]; exact hd _ (by omega)
    · exact absurd h3 (List.not_mem_nil c)

/-- Claim C5: when the greeting carries both `i` and `s`, the `pwdhash`
sent in HELLO is the lowercase hex encoding of SHA-256 applied exactly
`i` times starting from the byte concatenation of the password and the
salt; if no password was supplied, `connect()` fails.  `sha` abstracts
SHA-256; `hne` records that the digest bytes are non-empty (true of real
SHA-256), which the source's `if password_hash:` truthiness test needs. -/
theorem C5_pwdhash (sha : List Nat → List Nat) (pw salt : List Nat) (iters : Nat)
    (hpw : pw ≠ []) (hne : sha256Loop sha iters (pw ++ salt) ≠ []) :
    connectAuth sha (some pw) (some iters) (some salt)
      = .ok (some (bytesHex (sha^[iters] (pw ++ salt)))) ∧
    connectAuth sha none (some iters) (some salt)
      = .error "Password required but not provided" ∧
    ∀ c ∈ (bytesHex (sha^[iters] (pw ++ salt))).data, c ∈ ("0123456789abcdef").data := by
  rw [sha256Loop_eq_iterate] at hne
  refine ⟨?_, rfl, bytesHex_lower _⟩
  simp only [connectAuth, sha256Loop_eq_iterate]
  rw [if_neg hpw, if_neg hne]

/-- Witness for C5: a concrete stand-in hash, password bytes `[1]`, salt
bytes `[2]` and 3 iterations. -/
theorem C5_witness :
    connectAuth shaDemo (some [1]) (some 3) (some [2])
      = .ok (some (bytesHex (shaDemo^[3] ([1] ++ [2])))) ∧
    connectAuth shaDemo none (some 3) (some [2])
      = .error "Password required but not provided" :=
  ⟨(C5_pwdhash shaDemo [1] [2] 3 (by decide) (by decide)).1,
   (C5_pwdhash shaDemo [1] [2] 3 (by decide) (by decide)).2.1⟩

/-- Claim C3 (failing input): `weighted_shuffle` does *not* implement the
Efraimidis–Spirakis shuffle: the source computes `random()**w` (not
`random()**(1/w)`) and sorts the keys ascending (not descending).  With
items `["a", "b"]`, weights `[1, 1]` and draws `[1/4, 1/2]` (weight 1 makes
both key formulas coincide at the draw itself, so only the sort direction
is at stake), the source returns `["a", "b"]` while the specified shuffle
returns `["b", "a"]`. -/
theorem C3_weighted_shuffle_diverges :
    weighted_shuffle ["a", "b"] [1, 1] [1/4, 1/2] = ["a", "b"] ∧
    esWeightedShuffle ["a", "b"] [1, 1] [1/4, 1/2] = ["b", "a"] := by
  constructor
  · unfold weighted_shuffle
    rw [show (["a", "b"] : List String).length = 2 from rfl,
      show List.range 2 = [0, 1] from by decide]
    simp only [List.insertionSort, List.orderedInsert, List.getD_cons_zero, List.getD_cons_succ]
    rw [if_pos (by norm_num : ((1/4 : ℚ)) ^ (1 : ℕ) < ((1/2 : ℚ)) ^ (1 : ℕ))]
    rfl
  · unfold esWeightedShuffle
    rw [show (["a", "b"] : List String).length = 2 from rfl,
      show List.range 2 = [0, 1] from by decide]
    simp only [List.insertionSort, List.orderedInsert]
    rw [if_neg ?hkey]
    · rfl
    case hkey =>
      simp only [List.getD_cons_zero, List.getD_cons_succ]
      rw [show (((1 : Nat) : ℝ)) = 1 from by norm_num]
      rw [div_one, Real.rpow_one, Real.rpow_one]
      rw [not_lt]
      rw [show ((1/4 : ℚ) : ℝ) = 1/4 from by norm_num,
        show ((1/2 : ℚ) : ℝ) = 1/2 from by norm_num]
      norm_num

end Pyfaktory
